import Mathlib

/-!
Shallow embedding of the Deploy-Nodejs authentication service.

`src/services/authService.js` is embedded as pure functions over an explicit
store state `DB` (the HMS_USERS and HMS_REFRESH_TOKENS tables as lists of
rows, in insertion order).  Time (`CURRENT_TIMESTAMP`) is an explicit `Nat`
parameter.  The external collaborators — bcrypt (`hash`, `compare`) and the
JWT utilities (`generateAccessToken`, `generateRefreshToken`,
`verifyRefreshToken`) — are opaque primitives in the source tree and are
passed in as function parameters.  A JavaScript string argument that may be
`undefined` is embedded as `Option String`; the JS truthiness test
`!refreshToken` holds for both `undefined` and the empty string, so absence
is `none` or `some ""`.

`src/db/connection.js` is embedded as functions over an abstract pool state
counting acquired connections, with the outcomes of `getConnection`,
`connection.execute` and the transaction callback given as parameters.
-/

namespace AuthService

/-- A row of HMS_USERS: ID, USERNAME, EMAIL, PASSWORD_HASH, CREATED_AT, UPDATED_AT. -/
structure UserRow where
  id : Nat
  username : String
  email : String
  passwordHash : String
  createdAt : Nat
  updatedAt : Nat
deriving DecidableEq, Repr

/-- A row of HMS_REFRESH_TOKENS: USER_ID, TOKEN, EXPIRES_AT, CREATED_AT, IS_REVOKED. -/
structure TokenRow where
  userId : Nat
  token : String
  expiresAt : Nat
  createdAt : Nat
  isRevoked : Bool
deriving DecidableEq, Repr

/-- The relational store: both tables in insertion order, plus the
auto-increment counter for HMS_USERS.ID. -/
structure DB where
  users : List UserRow
  tokens : List TokenRow
  nextUserId : Nat
deriving DecidableEq, Repr

/-- The `{id, username, email}` shape returned for a user by login/refresh. -/
structure PublicUser where
  id : Nat
  username : String
  email : String
deriving DecidableEq, Repr

/-- Claims of an access token: `{userId, username, email}`. -/
structure AccessClaims where
  userId : Nat
  username : String
  email : String
deriving DecidableEq, Repr

/-- Claims of a refresh token: `{userId}`. -/
structure RefreshClaims where
  userId : Nat
deriving DecidableEq, Repr

/-- Result of `registerUser`. -/
structure RegisterResult where
  id : Nat
  username : String
  email : String
  createdAt : Nat
deriving DecidableEq, Repr

/-- Result of `loginUser`. -/
structure LoginResult where
  user : PublicUser
  accessToken : String
  refreshToken : String
deriving DecidableEq, Repr

/-- Result of `refreshAccessToken`. -/
structure RefreshResult where
  accessToken : String
  user : PublicUser
deriving DecidableEq, Repr

/-- Result of `getUserById`. -/
structure UserRecord where
  id : Nat
  username : String
  email : String
  createdAt : Nat
  updatedAt : Nat
deriving DecidableEq, Repr

/-- The error kinds thrown by authService (one per distinct `Error` message). -/
inductive AuthError where
  | duplicateUsername
  | duplicateEmail
  | creationFailed
  | invalidCredentials
  | missingToken
  | invalidOrExpiredToken
  | userNotFound
deriving DecidableEq, Repr

/-- 7 days in milliseconds: `expiresAt.setDate(expiresAt.getDate() + 7)`. -/
def sevenDays : Nat := 7 * 24 * 60 * 60 * 1000

/-- JS truthiness of the optional string argument: `!x` holds for
`undefined` and for the empty string. -/
def strAbsent : Option String → Bool
  | none => true
  | some s => s.isEmpty

/-- Steps 2–4 of `registerUser` (after the duplicate check has passed or
fallen through): hash the password, INSERT the user row with server-assigned
id and timestamps, re-SELECT by username and return the first row, failing
with `creationFailed` if the re-fetch is empty. -/
def registerInsert (hash : String → String) (now : Nat) (db : DB)
    (username email password : String) : Except AuthError RegisterResult × DB :=
  let passwordHash := hash password
  let newRow : UserRow :=
    { id := db.nextUserId, username := username, email := email,
      passwordHash := passwordHash, createdAt := now, updatedAt := now }
  let db1 : DB := { db with users := db.users ++ [newRow], nextUserId := db.nextUserId + 1 }
  match db1.users.filter (fun u => u.username == username) with
  | [] => (.error .creationFailed, db1)
  | user :: _ =>
      (.ok { id := user.id, username := user.username, email := user.email,
             createdAt := user.createdAt }, db1)

/-- `registerUser({username, email, password})`: SELECT rows matching
`USERNAME = :username OR EMAIL = :email`; on the first returned row, throw
`duplicateUsername` if its username matches, else `duplicateEmail` if its
email matches; otherwise continue with hash + INSERT + re-fetch. -/
def registerUser (hash : String → String) (now : Nat) (db : DB)
    (username email password : String) : Except AuthError RegisterResult × DB :=
  match db.users.filter (fun u => u.username == username || u.email == email) with
  | existing :: _ =>
      if existing.username == username then (.error .duplicateUsername, db)
      else if existing.email == email then (.error .duplicateEmail, db)
      else registerInsert hash now db username email password
  | [] => registerInsert hash now db username email password

/-- `loginUser({username, password})`: SELECT rows matching
`USERNAME = :username OR EMAIL = :username`; fail `invalidCredentials` if
none or if `bcrypt.compare` is false; otherwise issue the access token
(claims userId/username/email) and refresh token (claim userId), INSERT a
refresh-token row with `EXPIRES_AT = now + 7 days`, `IS_REVOKED = 0`, and
return `{user, accessToken, refreshToken}`. -/
def loginUser (bcompare : String → String → Bool)
    (genAccess : AccessClaims → String) (genRefresh : RefreshClaims → String)
    (now : Nat) (db : DB) (username password : String) :
    Except AuthError LoginResult × DB :=
  match db.users.filter (fun u => u.username == username || u.email == username) with
  | [] => (.error .invalidCredentials, db)
  | user :: _ =>
      if bcompare password user.passwordHash then
        let accessToken := genAccess
          { userId := user.id, username := user.username, email := user.email }
        let refreshToken := genRefresh { userId := user.id }
        let newTok : TokenRow :=
          { userId := user.id, token := refreshToken,
            expiresAt := now + sevenDays, createdAt := now, isRevoked := false }
        let db1 : DB := { db with tokens := db.tokens ++ [newTok] }
        (.ok { user := { id := user.id, username := user.username, email := user.email },
               accessToken := accessToken, refreshToken := refreshToken }, db1)
      else (.error .invalidCredentials, db)

/-- The SELECT of `refreshAccessToken` (the Session Store `findActive`):
rows of HMS_REFRESH_TOKENS with `TOKEN = :token AND IS_REVOKED = 0 AND
EXPIRES_AT > CURRENT_TIMESTAMP`, joined to HMS_USERS on `USER_ID = ID`,
projected to `{USER_ID, USERNAME, EMAIL}`. -/
def findActive (db : DB) (now : Nat) (token : String) : List PublicUser :=
  (db.tokens.filter
      (fun r => r.token == token && !r.isRevoked && decide (now < r.expiresAt))).flatMap
    (fun r => (db.users.filter (fun u => u.id == r.userId)).map
      (fun u => { id := u.id, username := u.username, email := u.email }))

/-- `refreshAccessToken(refreshToken)`: `missingToken` when the argument is
absent; `invalidOrExpiredToken` when `verifyRefreshToken` throws; otherwise
look the token up (not-revoked, not-expired, joined to its user), failing
with the same `invalidOrExpiredToken` when no row matches; on success issue
a new access token from the stored identity.  Every statement here is a
SELECT, so the store passes through unchanged. -/
def refreshAccessToken (jwtVerify : String → Bool)
    (genAccess : AccessClaims → String) (now : Nat) (db : DB)
    (refreshToken : Option String) : Except AuthError RefreshResult × DB :=
  if strAbsent refreshToken then (.error .missingToken, db)
  else
    match refreshToken with
    | none => (.error .missingToken, db)
    | some t =>
        if !jwtVerify t then (.error .invalidOrExpiredToken, db)
        else
          match findActive db now t with
          | [] => (.error .invalidOrExpiredToken, db)
          | ident :: _ =>
              (.ok { accessToken := genAccess
                       { userId := ident.id, username := ident.username,
                         email := ident.email },
                     user := ident }, db)

/-- Per-row effect of logout's UPDATE: set `IS_REVOKED = 1` on a row with
`TOKEN = :token AND IS_REVOKED = 0`, leave every other row alone. -/
def revokeRow (t : String) (r : TokenRow) : TokenRow :=
  if r.token == t && !r.isRevoked then { r with isRevoked := true } else r

/-- `logoutUser(refreshToken)`: silent no-op when the argument is absent;
otherwise `UPDATE HMS_REFRESH_TOKENS SET IS_REVOKED = 1 WHERE TOKEN = :token
AND IS_REVOKED = 0`.  Never throws. -/
def logoutUser (db : DB) (refreshToken : Option String) : DB :=
  if strAbsent refreshToken then db
  else
    match refreshToken with
    | none => db
    | some t => { db with tokens := db.tokens.map (revokeRow t) }

/-- `getUserById(userId)`: SELECT by ID, `userNotFound` when no row. -/
def getUserById (db : DB) (userId : Nat) : Except AuthError UserRecord × DB :=
  match db.users.filter (fun u => u.id == userId) with
  | [] => (.error .userNotFound, db)
  | u :: _ =>
      (.ok { id := u.id, username := u.username, email := u.email,
             createdAt := u.createdAt, updatedAt := u.updatedAt }, db)

/-! ## Connection layer (`src/db/connection.js`) -/

/-- Abstract pool state: the number of connections currently checked out. -/
structure Pool where
  acquired : Nat
deriving DecidableEq, Repr

/-- Outcome recorded for a transaction: COMMIT or ROLLBACK was issued. -/
inductive TxOutcome where
  | committed
  | rolledBack
deriving DecidableEq, Repr

/-- `executeQuery(sql, params)`: acquire a connection (`acq` is the outcome
of `getConnection()`), run the statement (`queryResult` is the outcome of
`connection.execute`), rethrow errors, and `finally` release the connection
when one was acquired. -/
def executeQuery {E A : Type} (p : Pool) (acq : Except E Unit)
    (queryResult : Except E A) : Except E A × Pool :=
  match acq with
  | .error e => (.error e, p)
  | .ok _ =>
      let p1 : Pool := ⟨p.acquired + 1⟩
      match queryResult with
      | .ok a => (.ok a, ⟨p1.acquired - 1⟩)
      | .error e => (.error e, ⟨p1.acquired - 1⟩)

/-- `executeTransaction(callback)`: acquire a connection, BEGIN, run the
callback (`cb` is its outcome), COMMIT on normal completion; on failure
ROLLBACK and rethrow; `finally` release the connection when one was
acquired. -/
def executeTransaction {E : Type} (p : Pool) (acq : Except E Unit)
    (cb : Except E Unit) : Except E Unit × Pool × Option TxOutcome :=
  match acq with
  | .error e => (.error e, p, none)
  | .ok _ =>
      let p1 : Pool := ⟨p.acquired + 1⟩
      match cb with
      | .ok _ => (.ok (), ⟨p1.acquired - 1⟩, some .committed)
      | .error e => (.error e, ⟨p1.acquired - 1⟩, some .rolledBack)

/-! ## Concrete states used by witnesses and counterexamples -/

/-- Empty store. -/
def dbEmpty : DB := { users := [], tokens := [], nextUserId := 1 }

/-- One registered user `a` / `e`. -/
def dbOne : DB :=
  { users := [{ id := 1, username := "a", email := "e", passwordHash := "h",
                createdAt := 0, updatedAt := 0 }],
    tokens := [], nextUserId := 2 }

/-- Two users: the first collides on email `"e"` only, the second on
username `"u"` only. -/
def dbTwo : DB :=
  { users := [{ id := 1, username := "bob", email := "e", passwordHash := "hb",
                createdAt := 0, updatedAt := 0 },
              { id := 2, username := "u", email := "a", passwordHash := "ha",
                createdAt := 0, updatedAt := 0 }],
    tokens := [], nextUserId := 3 }

/-! ## Theorems -/

/-- C9: `executeQuery` restores the pool on every exit path (connection
acquisition failure, statement success, statement failure), and
`executeTransaction` likewise restores the pool on every path, COMMITs and
returns normally when the callback completes, and ROLLs BACK and rethrows
when the callback fails. -/
theorem c9_connection_never_leaks {E A : Type} (p : Pool) (acq : Except E Unit)
    (queryResult : Except E A) (cb : Except E Unit) (e : E) :
    ((executeQuery p acq queryResult).2).acquired = p.acquired ∧
    ((executeTransaction p acq cb).2.1).acquired = p.acquired ∧
    (executeTransaction p (Except.ok () : Except E Unit) (.ok ())).1 = .ok () ∧
    (executeTransaction p (Except.ok () : Except E Unit) (.ok ())).2.2 = some .committed ∧
    (executeTransaction p (Except.ok () : Except E Unit) (.error e)).1 = .error e ∧
    (executeTransaction p (Except.ok () : Except E Unit) (.error e)).2.2
      = some .rolledBack := by
  refine ⟨?_, ?_, rfl, rfl, rfl, rfl⟩
  · cases acq with
    | error e => rfl
    | ok _ => cases queryResult <;> simp [executeQuery]
  · cases acq with
    | error e => rfl
    | ok _ => cases cb <;> simp [executeTransaction]

/-- C3: login fails with exactly `invalidCredentials` both when the
identifier lookup (username OR email) returns no row and when a row is
found but `bcrypt.compare` returns false — the same error kind in both
cases. -/
theorem c3_login_enumeration_resistance (bcompare : String → String → Bool)
    (genAccess : AccessClaims → String) (genRefresh : RefreshClaims → String)
    (now : Nat) (db : DB) (username password : String) :
    (db.users.filter (fun x => x.username == username || x.email == username) = [] →
      (loginUser bcompare genAccess genRefresh now db username password).1
        = .error .invalidCredentials) ∧
    (∀ u rest,
      db.users.filter (fun x => x.username == username || x.email == username) = u :: rest →
      bcompare password u.passwordHash = false →
      (loginUser bcompare genAccess genRefresh now db username password).1
        = .error .invalidCredentials) := by
  constructor
  · intro h
    unfold loginUser
    rw [h]
  · intro u rest h hbc
    unfold loginUser
    rw [h]
    simp [hbc]

theorem c3_witness :
    (loginUser (fun _ _ => false) (fun _ => "A") (fun _ => "R") 0 dbOne "n" "x").1
      = .error .invalidCredentials ∧
    (loginUser (fun _ _ => false) (fun _ => "A") (fun _ => "R") 0 dbOne "a" "x").1
      = .error .invalidCredentials :=
  ⟨(c3_login_enumeration_resistance (fun _ _ => false) (fun _ => "A") (fun _ => "R")
      0 dbOne "n" "x").1 rfl,
   (c3_login_enumeration_resistance (fun _ _ => false) (fun _ => "A") (fun _ => "R")
      0 dbOne "a" "x").2
     { id := 1, username := "a", email := "e", passwordHash := "h",
       createdAt := 0, updatedAt := 0 } [] rfl rfl⟩

/-- C10: when the duplicate pre-check finds any matching row, register
returns the store unchanged (no user row inserted), fails with one of the
two duplicate errors, and its outcome does not depend on the hashing
function at all (the password is never hashed on that path). -/
theorem c10_register_duplicate_no_side_effects
    (hash hash2 : String → String) (now : Nat) (db : DB)
    (username email password : String)
    (hne : db.users.filter (fun x => x.username == username || x.email == email) ≠ []) :
    (registerUser hash now db username email password).2 = db ∧
    ((registerUser hash now db username email password).1 = .error .duplicateUsername ∨
     (registerUser hash now db username email password).1 = .error .duplicateEmail) ∧
    registerUser hash now db username email password
      = registerUser hash2 now db username email password := by
  cases hf : db.users.filter (fun x => x.username == username || x.email == email) with
  | nil => exact absurd hf hne
  | cons u rest =>
    have hu : u ∈ db.users.filter (fun x => x.username == username || x.email == email) := by
      rw [hf]; exact List.mem_cons_self u rest
    have hor := List.of_mem_filter hu
    unfold registerUser
    rw [hf]
    by_cases h1 : (u.username == username) = true
    · simp [h1]
    · have h2 : (u.email == email) = true := by
        simp only [Bool.or_eq_true] at hor
        exact hor.resolve_left h1
      simp [h1, h2]

theorem c10_witness :
    (registerUser (fun s => s) 0 dbOne "a" "z" "p").2 = dbOne ∧
    ((registerUser (fun s => s) 0 dbOne "a" "z" "p").1 = .error .duplicateUsername ∨
     (registerUser (fun s => s) 0 dbOne "a" "z" "p").1 = .error .duplicateEmail) ∧
    registerUser (fun s => s) 0 dbOne "a" "z" "p"
      = registerUser (fun s => s ++ "!") 0 dbOne "a" "z" "p" :=
  c10_register_duplicate_no_side_effects (fun s => s) (fun s => s ++ "!") 0 dbOne
    "a" "z" "p" (by decide)

/-- C4 counterexample: in `dbTwo` some row has username `"u"`, yet
`register("u", "e", _)` fails with `duplicateEmail`, not
`duplicateUsername`: the first row returned by the existence query matched
on email only, and the code inspects only that first row. -/
theorem c4_counterexample :
    ((dbTwo.users.map (fun u => u.username)).contains "u" = true) ∧
    (registerUser (fun s => s) 0 dbTwo "u" "e" "p").1 = .error .duplicateEmail := by
  exact ⟨rfl, rfl⟩

/-- C4 (amended): when the existence query returns at least one row,
register fails with the duplicate error determined by the *first* returned
row: `duplicateUsername` if that row's username equals the requested
username, otherwise `duplicateEmail`; the username check takes priority
only within that examined row, not across all colliding rows. The store is
unchanged. -/
theorem c4_register_duplicate_first_row
    (hash : String → String) (now : Nat) (db : DB)
    (username email password : String) (r : UserRow) (rest : List UserRow)
    (hf : db.users.filter (fun x => x.username == username || x.email == email)
            = r :: rest) :
    (registerUser hash now db username email password).1
      = .error (if r.username == username then .duplicateUsername else .duplicateEmail) ∧
    (registerUser hash now db username email password).2 = db := by
  have hr : r ∈ db.users.filter (fun x => x.username == username || x.email == email) := by
    rw [hf]; exact List.mem_cons_self r rest
  have hor := List.of_mem_filter hr
  unfold registerUser
  rw [hf]
  by_cases h1 : (r.username == username) = true
  · simp [h1]
  · have h2 : (r.email == email) = true := by
      simp only [Bool.or_eq_true] at hor
      exact hor.resolve_left h1
    simp [h1, h2]

theorem c4_witness :
    (registerUser (fun s => s) 0 dbTwo "u" "e" "p").1
      = .error (if ("bob" : String) == "u" then AuthError.duplicateUsername
                else AuthError.duplicateEmail) ∧
    (registerUser (fun s => s) 0 dbTwo "u" "e" "p").2 = dbTwo :=
  c4_register_duplicate_first_row (fun s => s) 0 dbTwo "u" "e" "p"
    { id := 1, username := "bob", email := "e", passwordHash := "hb",
      createdAt := 0, updatedAt := 0 }
    [{ id := 2, username := "u", email := "a", passwordHash := "ha",
       createdAt := 0, updatedAt := 0 }] rfl

/-- A nonempty string is not "absent" in the JS-truthiness sense. -/
lemma strAbsent_some_eq_false {t : String} (ht : t ≠ "") :
    strAbsent (some t) = false := by
  simp only [strAbsent]
  rw [Bool.eq_false_iff]
  intro h
  exact ht ((String.isEmpty_iff t).mp h)

/-- Every statement of `refreshAccessToken` is a SELECT: the store passes
through unchanged on every path. -/
lemma refreshAccessToken_db_unchanged (jwtVerify : String → Bool)
    (genAccess : AccessClaims → String) (now : Nat) (db : DB)
    (refreshToken : Option String) :
    (refreshAccessToken jwtVerify genAccess now db refreshToken).2 = db := by
  unfold refreshAccessToken
  split
  · rfl
  · split
    · rfl
    · split
      · rfl
      · split <;> rfl

/-- C5: `refresh` fails `missingToken` on an absent argument (undefined or
empty string); a present token failing `verifyRefreshToken` yields
`invalidOrExpiredToken` with a result independent of the store contents (no
lookup is observable); a token passing the signature check but matching no
active store row yields the same `invalidOrExpiredToken`. -/
theorem c5_refresh_error_discipline (jwtVerify : String → Bool)
    (genAccess : AccessClaims → String) (now : Nat) (db db2 : DB) (t : String) :
    (refreshAccessToken jwtVerify genAccess now db none).1 = .error .missingToken ∧
    (refreshAccessToken jwtVerify genAccess now db (some "")).1 = .error .missingToken ∧
    (t ≠ "" → jwtVerify t = false →
      (refreshAccessToken jwtVerify genAccess now db (some t)).1
        = .error .invalidOrExpiredToken ∧
      (refreshAccessToken jwtVerify genAccess now db2 (some t)).1
        = (refreshAccessToken jwtVerify genAccess now db (some t)).1) ∧
    (t ≠ "" → jwtVerify t = true → findActive db now t = [] →
      (refreshAccessToken jwtVerify genAccess now db (some t)).1
        = .error .invalidOrExpiredToken) := by
  refine ⟨rfl, rfl, ?_, ?_⟩
  · intro ht hjv
    have habs := strAbsent_some_eq_false ht
    constructor <;> simp [refreshAccessToken, habs, hjv]
  · intro ht hjv hfa
    have habs := strAbsent_some_eq_false ht
    simp [refreshAccessToken, habs, hjv, hfa]

theorem c5_witness :
    (refreshAccessToken (fun _ => false) (fun _ => "A") 0 dbEmpty (some "x")).1
      = .error .invalidOrExpiredToken ∧
    (refreshAccessToken (fun _ => true) (fun _ => "A") 0 dbEmpty (some "x")).1
      = .error .invalidOrExpiredToken :=
  ⟨((c5_refresh_error_discipline (fun _ => false) (fun _ => "A") 0 dbEmpty dbEmpty
      "x").2.2.1 (by decide) rfl).1,
   (c5_refresh_error_discipline (fun _ => true) (fun _ => "A") 0 dbEmpty dbEmpty
      "x").2.2.2 (by decide) rfl rfl⟩

/-- The foreign-key invariant of the schema: every refresh-token row's
USER_ID references an existing HMS_USERS row. -/
def fkOk (db : DB) : Prop := ∀ r ∈ db.tokens, ∃ u ∈ db.users, u.id = r.userId

/-- C6: under the schema's foreign-key invariant, the lookup of `refresh`
returns some identity iff some stored row for the token has
`revoked = false` and expiry strictly later than now (not-found, revoked
and expired all collapse to the empty result); and any returned identity is
the owning user's `{id, username, email}`. -/
theorem c6_findActive_iff_active (db : DB) (now : Nat) (t : String)
    (hfk : fkOk db) :
    (findActive db now t ≠ [] ↔
      ∃ r ∈ db.tokens, r.token = t ∧ r.isRevoked = false ∧ now < r.expiresAt) ∧
    (∀ ident rest, findActive db now t = ident :: rest →
      ∃ r ∈ db.tokens, r.token = t ∧ r.isRevoked = false ∧ now < r.expiresAt ∧
        ∃ u ∈ db.users, u.id = r.userId ∧
          ident = { id := u.id, username := u.username, email := u.email }) := by
  constructor
  · constructor
    · intro hne
      obtain ⟨x, hx⟩ := List.exists_mem_of_ne_nil _ hne
      obtain ⟨r, hrmem, hximg⟩ := List.mem_flatMap.mp hx
      obtain ⟨hrtok, hP⟩ := List.mem_filter.mp hrmem
      simp only [Bool.and_eq_true, beq_iff_eq, Bool.not_eq_true',
        decide_eq_true_eq] at hP
      exact ⟨r, hrtok, hP.1.1, hP.1.2, hP.2⟩
    · rintro ⟨r, hrmem, htok, hrev, hexp⟩
      obtain ⟨u, humem, huid⟩ := hfk r hrmem
      have hP : (fun r => r.token == t && !r.isRevoked && decide (now < r.expiresAt)) r
          = true := by
        simp [htok, hrev, hexp]
      apply List.ne_nil_of_mem (a :=
        ({ id := u.id, username := u.username, email := u.email } : PublicUser))
      apply List.mem_flatMap.mpr
      refine ⟨r, List.mem_filter.mpr ⟨hrmem, hP⟩, ?_⟩
      apply List.mem_map.mpr
      refine ⟨u, List.mem_filter.mpr ⟨humem, ?_⟩, rfl⟩
      simp [huid]
  · intro ident rest heq
    have hx : ident ∈ findActive db now t := by
      rw [heq]; exact List.mem_cons_self ident rest
    obtain ⟨r, hrmem, hximg⟩ := List.mem_flatMap.mp hx
    obtain ⟨hrtok, hP⟩ := List.mem_filter.mp hrmem
    simp only [Bool.and_eq_true, beq_iff_eq, Bool.not_eq_true',
      decide_eq_true_eq] at hP
    obtain ⟨u, humem, huimg⟩ := List.mem_map.mp hximg
    obtain ⟨huu, huid⟩ := List.mem_filter.mp humem
    refine ⟨r, hrtok, hP.1.1, hP.1.2, hP.2, u, huu, ?_, huimg.symm⟩
    exact (beq_iff_eq.mp huid)

theorem c6_witness :
    findActive
      { users := [{ id := 1, username := "a", email := "e", passwordHash := "h",
                    createdAt := 0, updatedAt := 0 }],
        tokens := [{ userId := 1, token := "T", expiresAt := 9, createdAt := 0,
                     isRevoked := false }],
        nextUserId := 2 } 5 "T" ≠ [] :=
  (c6_findActive_iff_active _ 5 "T" (by unfold fkOk; decide)).1.mpr
    ⟨{ userId := 1, token := "T", expiresAt := 9, createdAt := 0, isRevoked := false },
     by decide, rfl, rfl, by decide⟩

/-- Token-table evolution allowed by the service: no row is deleted (every
index of the old table is still populated) and each surviving row is either
untouched or has had its `isRevoked` flag set to true.  In particular a row
with `isRevoked = true` can never become unrevoked. -/
def revokeMono (old new : List TokenRow) : Prop :=
  old.length ≤ new.length ∧
  ∀ (i : Nat) (r : TokenRow), old[i]? = some r →
    (new[i]? = some r ∨ new[i]? = some { r with isRevoked := true })

lemma revokeMono_refl (l : List TokenRow) : revokeMono l l :=
  ⟨Nat.le_refl _, fun _ _ h => Or.inl h⟩

lemma revokeMono_append (l ext : List TokenRow) : revokeMono l (l ++ ext) := by
  refine ⟨by simp, fun i r h => Or.inl ?_⟩
  have hi : i < l.length := by
    by_contra hge
    rw [List.getElem?_eq_none (Nat.le_of_not_lt hge)] at h
    exact Option.noConfusion h
  rw [List.getElem?_append_left hi]
  exact h

lemma revokeMono_map (l : List TokenRow) (g : TokenRow → TokenRow)
    (hg : ∀ r, g r = r ∨ g r = { r with isRevoked := true }) :
    revokeMono l (l.map g) := by
  refine ⟨by simp, fun i r h => ?_⟩
  rw [List.getElem?_map, h]
  cases hg r with
  | inl he => rw [Option.map_some', he]; exact Or.inl rfl
  | inr he => rw [Option.map_some', he]; exact Or.inr rfl

/-- `registerUser` never touches HMS_REFRESH_TOKENS. -/
lemma registerUser_tokens_unchanged (hash : String → String) (now : Nat)
    (db : DB) (username email password : String) :
    ((registerUser hash now db username email password).2).tokens = db.tokens := by
  unfold registerUser registerInsert
  split
  · split
    · rfl
    · split
      · rfl
      · dsimp only
        split <;> rfl
  · dsimp only
    split <;> rfl

/-- `getUserById` never touches the store. -/
lemma getUserById_db_unchanged (db : DB) (userId : Nat) :
    (getUserById db userId).2 = db := by
  unfold getUserById
  split <;> rfl

/-- C8: every operation of the service evolves HMS_REFRESH_TOKENS by
`revokeMono`: no refresh-token row is ever deleted and no row's `isRevoked`
flag ever returns from true to false — revocation is terminal in every
reachable state. -/
theorem c8_revoked_terminal_no_deletion
    (hash : String → String) (bcompare : String → String → Bool)
    (genAccess : AccessClaims → String) (genRefresh : RefreshClaims → String)
    (jwtVerify : String → Bool) (now : Nat) (db : DB)
    (username email password : String) (tok : Option String) (userId : Nat) :
    revokeMono db.tokens ((registerUser hash now db username email password).2).tokens ∧
    revokeMono db.tokens
      ((loginUser bcompare genAccess genRefresh now db username password).2).tokens ∧
    revokeMono db.tokens ((refreshAccessToken jwtVerify genAccess now db tok).2).tokens ∧
    revokeMono db.tokens (logoutUser db tok).tokens ∧
    revokeMono db.tokens ((getUserById db userId).2).tokens := by
  refine ⟨?_, ?_, ?_, ?_, ?_⟩
  · rw [registerUser_tokens_unchanged]
    exact revokeMono_refl _
  · unfold loginUser
    split
    · exact revokeMono_refl _
    · split
      · exact revokeMono_append _ _
      · exact revokeMono_refl _
  · rw [refreshAccessToken_db_unchanged]
    exact revokeMono_refl _
  · unfold logoutUser
    split
    · exact revokeMono_refl _
    · split
      · exact revokeMono_refl _
      · exact revokeMono_map _ _ (fun r => by unfold revokeRow; split <;> simp)
  · rw [getUserById_db_unchanged]
    exact revokeMono_refl _

/-- A logged-out row never passes the active-row predicate again. -/
lemma revokeRow_not_active (t : String) (r : TokenRow) :
    ((revokeRow t r).token == t && !(revokeRow t r).isRevoked) = false := by
  unfold revokeRow
  by_cases h1 : (r.token == t) = true
  · by_cases h2 : r.isRevoked = true <;> simp [h1, h2]
  · simp [h1]

/-- After `logout(t)`, no row for `t` is active any more: the refresh
lookup comes back empty. -/
lemma findActive_logout_eq_nil (db : DB) (now : Nat) (t : String) (ht : t ≠ "") :
    findActive (logoutUser db (some t)) now t = [] := by
  have habs := strAbsent_some_eq_false ht
  unfold logoutUser
  simp only [habs, Bool.false_eq_true, if_false]
  unfold findActive
  have hfilter : ((db.tokens.map (revokeRow t)).filter
      (fun r => r.token == t && !r.isRevoked && decide (now < r.expiresAt))) = [] := by
    apply List.filter_eq_nil_iff.mpr
    intro x hx
    obtain ⟨r, _, hxe⟩ := List.mem_map.mp hx
    intro hP
    have hpair : (x.token == t && !x.isRevoked) = true :=
      ((Bool.and_eq_true _ _).mp hP).1
    rw [← hxe, revokeRow_not_active] at hpair
    exact Bool.false_ne_true hpair
  rw [hfilter]
  rfl

/-- Logging out the same token twice changes nothing the second time. -/
lemma revokeRow_idem (t : String) (r : TokenRow) :
    revokeRow t (revokeRow t r) = revokeRow t r := by
  unfold revokeRow
  by_cases h1 : (r.token == t) = true
  · by_cases h2 : r.isRevoked = true <;> simp [h1, h2]
  · simp [h1]

/-- C1: after `logout(t)` on any nonempty token `t`, `refresh(t)` fails
with `invalidOrExpiredToken` (whether or not the signature check passes);
and logout never fails: it is idempotent (a second `logout(t)` is a no-op,
and a never-issued token just updates zero rows) and silently does nothing
on an absent argument. -/
theorem c1_logout_revokes (jwtVerify : String → Bool)
    (genAccess : AccessClaims → String) (now2 : Nat) (db : DB)
    (t : String) (ht : t ≠ "") :
    (refreshAccessToken jwtVerify genAccess now2 (logoutUser db (some t)) (some t)).1
      = .error .invalidOrExpiredToken ∧
    logoutUser (logoutUser db (some t)) (some t) = logoutUser db (some t) ∧
    logoutUser db none = db ∧
    logoutUser db (some "") = db := by
  have habs := strAbsent_some_eq_false ht
  refine ⟨?_, ?_, rfl, rfl⟩
  · cases hjv : jwtVerify t with
    | false => simp [refreshAccessToken, habs, hjv]
    | true => simp [refreshAccessToken, habs, hjv, findActive_logout_eq_nil db now2 t ht]
  · unfold logoutUser
    simp only [habs, Bool.false_eq_true, if_false]
    have hmap : ((db.tokens.map (revokeRow t)).map (revokeRow t))
        = db.tokens.map (revokeRow t) := by
      rw [List.map_map]
      exact List.map_congr_left (fun r _ => revokeRow_idem t r)
    rw [hmap]

theorem c1_witness :
    (refreshAccessToken (fun _ => true) (fun _ => "A") 5
        (logoutUser
          { users := [{ id := 1, username := "a", email := "e", passwordHash := "h",
                        createdAt := 0, updatedAt := 0 }],
            tokens := [{ userId := 1, token := "T", expiresAt := 9, createdAt := 0,
                         isRevoked := false }],
            nextUserId := 2 } (some "T")) (some "T")).1
      = .error .invalidOrExpiredToken :=
  (c1_logout_revokes (fun _ => true) (fun _ => "A") 5
    { users := [{ id := 1, username := "a", email := "e", passwordHash := "h",
                  createdAt := 0, updatedAt := 0 }],
      tokens := [{ userId := 1, token := "T", expiresAt := 9, createdAt := 0,
                   isRevoked := false }],
      nextUserId := 2 } "T" (by decide)).1

/-- Inversion of a successful login: the matched user is the first row of
the identifier lookup, the password check passed, and the only store change
is the single appended refresh-token row. -/
lemma loginUser_ok (bcompare : String → String → Bool)
    (genAccess : AccessClaims → String) (genRefresh : RefreshClaims → String)
    (now : Nat) (db : DB) (username password : String) (res : LoginResult)
    (db' : DB)
    (h : loginUser bcompare genAccess genRefresh now db username password
           = (.ok res, db')) :
    ∃ u rest,
      db.users.filter (fun x => x.username == username || x.email == username)
        = u :: rest ∧
      bcompare password u.passwordHash = true ∧
      db'.users = db.users ∧
      db'.nextUserId = db.nextUserId ∧
      db'.tokens = db.tokens ++
        [{ userId := u.id, token := res.refreshToken,
           expiresAt := now + sevenDays, createdAt := now, isRevoked := false }] ∧
      res.accessToken
        = genAccess { userId := u.id, username := u.username, email := u.email } ∧
      res.refreshToken = genRefresh { userId := u.id } ∧
      res.user = { id := u.id, username := u.username, email := u.email } := by
  unfold loginUser at h
  cases hf : db.users.filter (fun x => x.username == username || x.email == username) with
  | nil =>
    rw [hf] at h
    exact absurd h (by simp)
  | cons u rest =>
    rw [hf] at h
    dsimp only at h
    by_cases hbc : bcompare password u.passwordHash = true
    · rw [if_pos hbc] at h
      simp only [Prod.mk.injEq, Except.ok.injEq] at h
      obtain ⟨hres, hdb⟩ := h
      subst hres
      subst hdb
      exact ⟨u, rest, rfl, hbc, rfl, rfl, rfl, rfl, rfl, rfl⟩
    · rw [if_neg hbc] at h
      exact absurd h (by simp)

/-- C7: a successful login inserts exactly one new RefreshToken row —
`revoked = false`, owned by the authenticated user, holding the returned
refresh token, expiring at `now + 7 days` — touches nothing else in the
store, issues the access token with claims `{userId, username, email}` and
the refresh token with claim `{userId}`, and returns
`{user, accessToken, refreshToken}` for that user. -/
theorem c7_login_success_effects (bcompare : String → String → Bool)
    (genAccess : AccessClaims → String) (genRefresh : RefreshClaims → String)
    (now : Nat) (db : DB) (username password : String) (res : LoginResult)
    (db' : DB)
    (h : loginUser bcompare genAccess genRefresh now db username password
           = (.ok res, db')) :
    ∃ u rest,
      db.users.filter (fun x => x.username == username || x.email == username)
        = u :: rest ∧
      bcompare password u.passwordHash = true ∧
      db'.users = db.users ∧
      db'.nextUserId = db.nextUserId ∧
      db'.tokens = db.tokens ++
        [{ userId := u.id, token := res.refreshToken,
           expiresAt := now + sevenDays, createdAt := now, isRevoked := false }] ∧
      res.accessToken
        = genAccess { userId := u.id, username := u.username, email := u.email } ∧
      res.refreshToken = genRefresh { userId := u.id } ∧
      res.user = { id := u.id, username := u.username, email := u.email } :=
  loginUser_ok bcompare genAccess genRefresh now db username password res db' h

theorem c7_witness :
    ∃ u rest,
      dbOne.users.filter (fun x => x.username == "a" || x.email == "a")
        = u :: rest ∧
      (fun (_ _ : String) => true) "p" u.passwordHash = true ∧
      ({ users := dbOne.users,
         tokens := [{ userId := 1, token := "R", expiresAt := 0 + sevenDays,
                      createdAt := 0, isRevoked := false }],
         nextUserId := 2 } : DB).users = dbOne.users ∧
      ({ users := dbOne.users,
         tokens := [{ userId := 1, token := "R", expiresAt := 0 + sevenDays,
                      createdAt := 0, isRevoked := false }],
         nextUserId := 2 } : DB).nextUserId = dbOne.nextUserId ∧
      ({ users := dbOne.users,
         tokens := [{ userId := 1, token := "R", expiresAt := 0 + sevenDays,
                      createdAt := 0, isRevoked := false }],
         nextUserId := 2 } : DB).tokens = dbOne.tokens ++
        [{ userId := u.id,
           token := ({ user := { id := 1, username := "a", email := "e" },
                       accessToken := "A", refreshToken := "R" } : LoginResult).refreshToken,
           expiresAt := 0 + sevenDays, createdAt := 0, isRevoked := false }] ∧
      ({ user := { id := 1, username := "a", email := "e" },
         accessToken := "A", refreshToken := "R" } : LoginResult).accessToken
        = (fun (_ : AccessClaims) => "A")
            { userId := u.id, username := u.username, email := u.email } ∧
      ({ user := { id := 1, username := "a", email := "e" },
         accessToken := "A", refreshToken := "R" } : LoginResult).refreshToken
        = (fun (_ : RefreshClaims) => "R") { userId := u.id } ∧
      ({ user := { id := 1, username := "a", email := "e" },
         accessToken := "A", refreshToken := "R" } : LoginResult).user
        = { id := u.id, username := u.username, email := u.email } :=
  c7_login_success_effects (fun _ _ => true) (fun _ => "A") (fun _ => "R") 0 dbOne
    "a" "p"
    { user := { id := 1, username := "a", email := "e" },
      accessToken := "A", refreshToken := "R" }
    { users := dbOne.users,
      tokens := [{ userId := 1, token := "R", expiresAt := 0 + sevenDays,
                   createdAt := 0, isRevoked := false }],
      nextUserId := 2 } rfl

/-- C2: `refresh` never writes to the store (every path returns it
unchanged: no rotation, re-issue or revocation), so a token issued by
login — fresh, signature-valid, nonempty — is accepted by `refresh` at any
time before its `now + 7 days` expiry, on the first and on every repeated
call, and is rejected with `invalidOrExpiredToken` at any time at or after
the expiry timestamp. -/
theorem c2_refresh_stateless_validity_window
    (bcompare : String → String → Bool) (genAccess : AccessClaims → String)
    (genRefresh : RefreshClaims → String) (jwtVerify : String → Bool)
    (now now2 : Nat) (db : DB) (username password : String)
    (res : LoginResult) (db' : DB)
    (hlogin : loginUser bcompare genAccess genRefresh now db username password
                = (.ok res, db'))
    (hjwt : jwtVerify res.refreshToken = true)
    (hne : res.refreshToken ≠ "")
    (hfresh : ∀ r ∈ db.tokens, r.token ≠ res.refreshToken) :
    (∀ (db0 : DB) (tok : Option String),
      (refreshAccessToken jwtVerify genAccess now2 db0 tok).2 = db0) ∧
    (now2 < now + sevenDays →
      ∃ out, (refreshAccessToken jwtVerify genAccess now2 db'
                (some res.refreshToken)).1 = .ok out) ∧
    (now + sevenDays ≤ now2 →
      (refreshAccessToken jwtVerify genAccess now2 db'
        (some res.refreshToken)).1 = .error .invalidOrExpiredToken) := by
  obtain ⟨u, rest, hf, hbc, hus, hnid, htoks, hat, hrt, huser⟩ :=
    loginUser_ok bcompare genAccess genRefresh now db username password res db' hlogin
  have habs := strAbsent_some_eq_false hne
  have humem : u ∈ db.users := by
    have : u ∈ db.users.filter (fun x => x.username == username || x.email == username) := by
      rw [hf]; exact List.mem_cons_self u rest
    exact List.mem_of_mem_filter this
  refine ⟨fun db0 tok => refreshAccessToken_db_unchanged jwtVerify genAccess now2 db0 tok,
    ?_, ?_⟩
  · intro hlt
    have hmem : ({ id := u.id, username := u.username, email := u.email } : PublicUser)
        ∈ findActive db' now2 res.refreshToken := by
      apply List.mem_flatMap.mpr
      refine ⟨{ userId := u.id, token := res.refreshToken,
                expiresAt := now + sevenDays, createdAt := now, isRevoked := false },
              List.mem_filter.mpr ⟨?_, by simp [hlt]⟩, ?_⟩
      · rw [htoks]
        exact List.mem_append_right _ (List.mem_singleton_self _)
      · apply List.mem_map.mpr
        refine ⟨u, List.mem_filter.mpr ⟨?_, by simp⟩, rfl⟩
        rw [hus]
        exact humem
    cases hfa : findActive db' now2 res.refreshToken with
    | nil => exact absurd hfa (List.ne_nil_of_mem hmem)
    | cons a l =>
      exact ⟨{ accessToken := genAccess
                 { userId := a.id, username := a.username, email := a.email },
               user := a },
             by simp [refreshAccessToken, habs, hjwt, hfa]⟩
  · intro hge
    have hfa : findActive db' now2 res.refreshToken = [] := by
      unfold findActive
      have hfilter : db'.tokens.filter
          (fun r => r.token == res.refreshToken && !r.isRevoked
                    && decide (now2 < r.expiresAt)) = [] := by
        apply List.filter_eq_nil_iff.mpr
        intro r hr hP
        rw [htoks] at hr
        rcases List.mem_append.mp hr with hold | hnew
        · have htk : (r.token == res.refreshToken) = true :=
            ((Bool.and_eq_true _ _).mp ((Bool.and_eq_true _ _).mp hP).1).1
          exact hfresh r hold (beq_iff_eq.mp htk)
        · simp only [List.mem_singleton] at hnew
          subst hnew
          have hc : decide (now2 < now + sevenDays) = true :=
            ((Bool.and_eq_true _ _).mp hP).2
          rw [decide_eq_true_eq] at hc
          omega
      rw [hfilter]
      rfl
    simp [refreshAccessToken, habs, hjwt, hfa]

theorem c2_witness :
    ∃ out, (refreshAccessToken (fun _ => true) (fun _ => "A") 3
             { users := dbOne.users,
               tokens := [{ userId := 1, token := "R", expiresAt := 0 + sevenDays,
                            createdAt := 0, isRevoked := false }],
               nextUserId := 2 } (some "R")).1 = .ok out :=
  (c2_refresh_stateless_validity_window (fun _ _ => true) (fun _ => "A")
    (fun _ => "R") (fun _ => true) 0 3 dbOne "a" "p"
    { user := { id := 1, username := "a", email := "e" },
      accessToken := "A", refreshToken := "R" }
    { users := dbOne.users,
      tokens := [{ userId := 1, token := "R", expiresAt := 0 + sevenDays,
                   createdAt := 0, isRevoked := false }],
      nextUserId := 2 }
    rfl rfl (by decide) (fun r hr => absurd hr (List.not_mem_nil r))).2.1 (by decide)

end AuthService
